import Mathlib

set_option maxRecDepth 100000
set_option maxHeartbeats 1000000

/-!
Verification of the cyclone-ai code-review bot against its specification.

The Go sources are shallowly embedded: Go strings are modelled as `List Char`
(or `String` where only literal assembly is involved), Go byte slices as
`List Nat` with every byte reduced modulo 256 where it matters, Go `int`
as `Int`, and fallible Go functions as `Option`/`Except`-valued Lean
functions.  Network and file-system effects are passed in explicitly as
outcome values, so every definition is executable.

Embedded components and their sources:
 * HMAC-SHA256 webhook-signature validation  (internal/bot/webhook.go)
 * the review-trigger decision               (internal/bot/webhook.go, main.go)
 * the PR size gate                          (main.go checkPRSize)
 * the model-response parser                 (main.go parseClaudeResponse,
                                              extractSection, parsePRCommentBlock)
 * the model-call failure handling           (main.go callClaudeAPIWithConfig)
 * the in-memory tenant config resolution    (main.go getRepositoryConfig)
 * the Supabase tenant config resolution     (internal/config/supabase.go,
                                              internal/config/provider.go)
 * GitHub-App auth construction and fallback (internal/review/github_app_auth.go,
                                              internal/bot bot.New /
                                              createInstallationClient)
-/

namespace Cyclone

/-! ### SHA-256 and HMAC-SHA256 over byte lists

The Go code calls `crypto/sha256` and `crypto/hmac`; these are embedded here
directly (FIPS 180-4 / RFC 2104) so that the signature check is fully
executable.  A 32-bit word is a `Nat` reduced modulo `2^32`; a byte list is a
`List Nat` with entries below 256. -/

def M32 : Nat := 4294967296

/-- Right rotation of a 32-bit word. -/
def rotr32 (n x : Nat) : Nat := ((x >>> n) ||| (x <<< (32 - n))) % M32

/-- Small sigma-0 of the SHA-256 message schedule. -/
def shaSig0 (x : Nat) : Nat := (rotr32 7 x) ^^^ (rotr32 18 x) ^^^ (x >>> 3)

/-- Small sigma-1 of the SHA-256 message schedule. -/
def shaSig1 (x : Nat) : Nat := (rotr32 17 x) ^^^ (rotr32 19 x) ^^^ (x >>> 10)

/-- The 64 SHA-256 round constants. -/
def sha256K : List Nat :=
  [1116352408, 1899447441, 3049323471, 3921009573,
   961987163, 1508970993, 2453635748, 2870763221,
   3624381080, 310598401, 607225278, 1426881987,
   1925078388, 2162078206, 2614888103, 3248222580,
   3835390401, 4022224774, 264347078, 604807628,
   770255983, 1249150122, 1555081692, 1996064986,
   2554220882, 2821834349, 2952996808, 3210313671,
   3336571891, 3584528711, 113926993, 338241895,
   666307205, 773529912, 1294757372, 1396182291,
   1695183700, 1986661051, 2177026350, 2456956037,
   2730485921, 2820302411, 3259730800, 3345764771,
   3516065817, 3600352804, 4094571909, 275423344,
   430227734, 506948616, 659060556, 883997877,
   958139571, 1322822218, 1537002063, 1747873779,
   1955562222, 2024104815, 2227730452, 2361852424,
   2428436474, 2756734187, 3204031479, 3329325298]

/-- The eight working variables of the SHA-256 compression function. -/
structure ShaState where
  a : Nat
  b : Nat
  c : Nat
  d : Nat
  e : Nat
  f : Nat
  g : Nat
  hh : Nat
deriving DecidableEq

/-- The SHA-256 initial hash value. -/
def sha256Init : ShaState :=
  ⟨1779033703, 3144134277, 1013904242, 2773480762,
   1359893119, 2600822924, 528734635, 1541459225⟩

/-- One SHA-256 round, consuming a round constant paired with a schedule word. -/
def shaRound (s : ShaState) (kw : Nat × Nat) : ShaState :=
  let bigS1 := (rotr32 6 s.e) ^^^ (rotr32 11 s.e) ^^^ (rotr32 25 s.e)
  let ch := (s.e &&& s.f) ^^^ ((4294967295 ^^^ s.e) &&& s.g)
  let t1 := (s.hh + bigS1 + ch + kw.1 + kw.2) % M32
  let bigS0 := (rotr32 2 s.a) ^^^ (rotr32 13 s.a) ^^^ (rotr32 22 s.a)
  let maj := (s.a &&& s.b) ^^^ (s.a &&& s.c) ^^^ (s.b &&& s.c)
  let t2 := (bigS0 + maj) % M32
  ⟨(t1 + t2) % M32, s.a, s.b, s.c, (s.d + t1) % M32, s.e, s.f, s.g⟩

/-- Extend a 16-word block to the 64-word message schedule (the second
argument counts the words still to be appended). -/
def extendW (w : List Nat) : Nat → List Nat
  | 0 => w
  | n + 1 =>
    let len := w.length
    let next := (shaSig1 (w.getD (len - 2) 0) + w.getD (len - 7) 0 +
                 shaSig0 (w.getD (len - 15) 0) + w.getD (len - 16) 0) % M32
    extendW (w ++ [next]) n

/-- Big-endian grouping of bytes into 32-bit words. -/
def bytesToWords : List Nat → List Nat
  | b0 :: b1 :: b2 :: b3 :: rest => (b0 * 16777216 + b1 * 65536 + b2 * 256 + b3) :: bytesToWords rest
  | _ => []

/-- Big-endian bytes of one 32-bit word. -/
def wordBytes (w : Nat) : List Nat := [w / 16777216 % 256, w / 65536 % 256, w / 256 % 256, w % 256]

/-- Componentwise modular addition of two SHA-256 states. -/
def addState (x y : ShaState) : ShaState :=
  ⟨(x.a + y.a) % M32, (x.b + y.b) % M32, (x.c + y.c) % M32, (x.d + y.d) % M32,
   (x.e + y.e) % M32, (x.f + y.f) % M32, (x.g + y.g) % M32, (x.hh + y.hh) % M32⟩

/-- Compress one 64-byte block into the running hash state. -/
def compressBlock (h : ShaState) (block : List Nat) : ShaState :=
  let w := extendW (bytesToWords block) 48
  addState h ((sha256K.zip w).foldl shaRound h)

/-- Cut a byte list into 64-byte blocks; the first argument is fuel, always
instantiated with the list length, which bounds the number of blocks. -/
def chunks64Aux : Nat → List Nat → List (List Nat)
  | _, [] => []
  | 0, l => [l]
  | n + 1, l => (l.take 64) :: chunks64Aux n (l.drop 64)

/-- Cut a byte list into 64-byte blocks. -/
def chunks64 (l : List Nat) : List (List Nat) := chunks64Aux l.length l

/-- SHA-256 padding: a 0x80 byte, zeros to 56 mod 64, then the bit length as
eight big-endian bytes. -/
def sha256Pad (msg : List Nat) : List Nat :=
  let len := msg.length
  let zeros := (64 - (len + 9) % 64) % 64
  let bitLen := len * 8
  msg ++ [128] ++ List.replicate zeros 0 ++
    [bitLen / 72057594037927936 % 256, bitLen / 281474976710656 % 256,
     bitLen / 1099511627776 % 256, bitLen / 4294967296 % 256,
     bitLen / 16777216 % 256, bitLen / 65536 % 256, bitLen / 256 % 256, bitLen % 256]

/-- The 32 output bytes of a final SHA-256 state. -/
def stateBytes (s : ShaState) : List Nat :=
  wordBytes s.a ++ wordBytes s.b ++ wordBytes s.c ++ wordBytes s.d ++
  wordBytes s.e ++ wordBytes s.f ++ wordBytes s.g ++ wordBytes s.hh

/-- SHA-256 of a byte list. -/
def sha256 (msg : List Nat) : List Nat :=
  stateBytes ((chunks64 (sha256Pad msg)).foldl compressBlock sha256Init)

/-- The HMAC key, hashed if longer than the block size and zero-padded to
64 bytes (RFC 2104, as implemented by Go's crypto/hmac). -/
def hmacKeyPadded (key : List Nat) : List Nat :=
  let k0 := if key.length > 64 then sha256 key else key
  k0 ++ List.replicate (64 - k0.length) 0

/-- HMAC-SHA256 of a message under a key. -/
def hmacSha256 (key msg : List Nat) : List Nat :=
  let kp := hmacKeyPadded key
  sha256 ((kp.map (fun b => b ^^^ 92)) ++ sha256 ((kp.map (fun b => b ^^^ 54)) ++ msg))

/-- The ASCII code of the lowercase hex digit for a value below 16, as
produced by Go's encoding/hex. -/
def hexDigitByte (n : Nat) : Nat := if n < 10 then 48 + n else 87 + n

/-- Lowercase hex encoding of a byte list, as ASCII codes
(Go's hex.EncodeToString). -/
def hexEncode : List Nat → List Nat
  | [] => []
  | b :: rest => hexDigitByte (b / 16 % 16) :: hexDigitByte (b % 16) :: hexEncode rest

/-- The bytes of a string (all theorem inputs are ASCII, where Go bytes and
Lean characters coincide). -/
def strBytes (s : String) : List Nat := s.data.map Char.toNat

/-! ### Webhook signature validation (internal/bot/webhook.go) -/

/-- The ASCII bytes of the literal prefix "sha256=". -/
def sha256EqTag : List Nat := strBytes "sha256="

/-- `validateWebhookSignature` from internal/bot/webhook.go: reject the empty
header; strip a leading "sha256=" when the header is longer than seven bytes
and starts with it; compare the rest against the hex-encoded HMAC-SHA256 of
the payload under the configured secret (Go compares in constant time with
hmac.Equal, which is plain equality of byte slices semantically). -/
def validateWebhookSignature (secret payload sigBytes : List Nat) : Bool :=
  if sigBytes = [] then false
  else
    let s := if 7 < sigBytes.length ∧ sigBytes.take 7 = sha256EqTag
             then sigBytes.drop 7 else sigBytes
    s == hexEncode (hmacSha256 secret payload)

/-- Outcome of the signature gate at the top of `handleWebhook`. -/
inductive WebhookAuth where
  | unauthorized
  | proceed
deriving DecidableEq

/-- The signature gate of `handleWebhook`: when a secret is configured and the
signature fails to validate, answer 401 and stop; otherwise processing
continues. -/
def webhookAuthCheck (secret body sig : List Nat) : WebhookAuth :=
  if secret ≠ [] ∧ validateWebhookSignature secret body sig = false
  then .unauthorized else .proceed

/-! ### Review trigger decision (internal/bot/webhook.go shouldTriggerReview) -/

/-- `shouldTriggerReview`: draft PRs never trigger; `opened` and
`ready_for_review` trigger; `synchronize` and every other action do not. -/
def shouldTriggerReview (action : String) (draft : Bool) : Bool :=
  if draft then false
  else if action = "opened" then true
  else if action = "ready_for_review" then true
  else if action = "synchronize" then false
  else false

/-! ### Go `strings` / `strconv` primitives over `List Char`

Each function mirrors the Go standard-library function the sources call.
Indices are character positions; for the operations used here (substring
search, splitting, slicing at found positions) character positions and Go's
byte positions identify the same occurrences on valid UTF-8 text. -/

/-- `strings.Index` restricted to start offset bookkeeping: the least index
`≥` the accumulator at which `sub` occurs in the remaining text. -/
def goIndexFrom (sub : List Char) : List Char → Nat → Option Nat
  | [], i => if sub.isEmpty then some i else none
  | c :: t, i => if sub.isPrefixOf (c :: t) then some i else goIndexFrom sub t (i + 1)

/-- `strings.Index`: the index of the first occurrence of `sub` in `s`
(`none` stands for Go's `-1`). -/
def goIndex (s sub : List Char) : Option Nat := goIndexFrom sub s 0

/-- Accumulator loop for `goLastIndex`, keeping the most recent match. -/
def goLastIndexFrom (sub : List Char) : List Char → Nat → Option Nat → Option Nat
  | [], i, acc => if sub.isEmpty then some i else acc
  | c :: t, i, acc =>
    goLastIndexFrom sub t (i + 1) (if sub.isPrefixOf (c :: t) then some i else acc)

/-- `strings.LastIndex`: the index of the last occurrence of `sub` in `s`. -/
def goLastIndex (s sub : List Char) : Option Nat := goLastIndexFrom sub s 0 none

/-- The Go slice `s[a:b]`. -/
def goSlice (s : List Char) (a b : Nat) : List Char := (s.take b).drop a

/-- Splitting loop for `goSplit`; the fuel is instantiated with the text
length, which bounds the number of separator occurrences. -/
def goSplitAux (sep : List Char) : Nat → List Char → List (List Char)
  | 0, s => [s]
  | fuel + 1, s =>
    match goIndex s sep with
    | none => [s]
    | some i => s.take i :: goSplitAux sep fuel (s.drop (i + sep.length))

/-- `strings.Split` for a non-empty separator: cut at every occurrence. -/
def goSplit (s sep : List Char) : List (List Char) := goSplitAux sep s.length s

/-- `strings.SplitN` for a non-empty separator: at most `n` pieces, the last
piece being the unsplit remainder. -/
def goSplitN (sep : List Char) : Nat → List Char → List (List Char)
  | 0, _ => []
  | 1, s => [s]
  | n + 2, s =>
    match goIndex s sep with
    | none => [s]
    | some i => s.take i :: goSplitN sep (n + 1) (s.drop (i + sep.length))

/-- `unicode.IsSpace` on the code points that occur in Go's Latin-1 fast
path (the inputs of interest are ASCII). -/
def isGoSpace (c : Char) : Bool :=
  c = ' ' || c = '\t' || c = '\n' || c = '\u000b' || c = '\u000c' || c = '\r' ||
  c = '\u0085' || c = '\u00a0'

/-- `strings.TrimSpace`: drop whitespace from both ends. -/
def goTrimSpace (s : List Char) : List Char :=
  ((s.dropWhile isGoSpace).reverse.dropWhile isGoSpace).reverse

/-- Digit-accumulating loop of `strconv.Atoi`: every remaining character must
be a decimal digit. -/
def digitsValAux : List Char → Nat → Option Nat
  | [], acc => some acc
  | c :: t, acc => if c.isDigit then digitsValAux t (acc * 10 + (c.toNat - 48)) else none

/-- The value of a non-empty all-digit string. -/
def digitsVal : List Char → Option Nat
  | [] => none
  | c :: t => digitsValAux (c :: t) 0

/-- `strconv.Atoi`: an optional sign followed by at least one digit; anything
else is an error (modelled as `none`; the arbitrary-precision value stands in
for Go's 64-bit value, which the line numbers at hand never overflow). -/
def goAtoi (s : List Char) : Option Int :=
  match s with
  | '+' :: rest => (digitsVal rest).map Int.ofNat
  | '-' :: rest => (digitsVal rest).map (fun n => -(n : Int))
  | _ => (digitsVal s).map Int.ofNat

/-- `strings.Contains`, used only in theorem statements. -/
def goContains (s sub : List Char) : Bool := (goIndex s sub).isSome

/-! ### Model-response parser (main.go parseClaudeResponse and helpers) -/

/-- A line-anchored review comment (`ReviewComment` in main.go). -/
structure ReviewComment where
  path : List Char
  line : Int
  body : List Char
  side : List Char
deriving DecidableEq

/-- The parsed review (`ReviewResult` in main.go). -/
structure ReviewResult where
  summary : List Char
  comments : List ReviewComment
deriving DecidableEq

/-- The `$$` delimiter token. -/
def dollarDollar : List Char := "$$".data

/-- `extractSection`: find the section header, then the first `$$` after it,
then the next `$$`, and return the trimmed text in between; any miss yields
the empty string. -/
def extractSection (text sectionHeader : List Char) : List Char :=
  match goIndex text sectionHeader with
  | none => []
  | some startIndex =>
    match goIndex (text.drop startIndex) dollarDollar with
    | none => []
    | some d =>
      let delimStart := startIndex + d + 2
      match goIndex (text.drop delimStart) dollarDollar with
      | none => []
      | some e => goTrimSpace (goSlice text delimStart (delimStart + e))

/-- `parsePRCommentBlock`: the text before the first `$$` is a header
`file:line:category` split on at most two colons; the text between the first
and last `$$` is the body; a missing delimiter pair, a header with fewer than
three fields, or a non-numeric line yields no comment. -/
def parsePRCommentBlock (block : List Char) : Option ReviewComment :=
  match goIndex block dollarDollar with
  | none => none
  | some startDelim =>
    match goLastIndex block dollarDollar with
    | none => none
    | some endDelim =>
      if endDelim ≤ startDelim then none
      else
        let header := goTrimSpace (goSlice block 0 startDelim)
        let content := goTrimSpace (goSlice block (startDelim + 2) endDelim)
        match goSplitN (":".data) 3 header with
        | p0 :: p1 :: p2 :: _ =>
          let file := goTrimSpace p0
          let lineNumStr := goTrimSpace p1
          let categoryPart := goTrimSpace p2
          match goAtoi lineNumStr with
          | none => none
          | some lineNum =>
            some ⟨file, lineNum, categoryPart ++ "\n\n".data ++ content, "RIGHT".data⟩
        | _ => none

/-- The separator inserted between summary and poem (exact bytes of the
literal in main.go, whose emoji are mojibake in the source file). -/
def poemJoiner : List Char :=
  "\n\n---\n\n**And now, a little poem about your changes ğŸŒªï¸âœ¨**\n".data

/-- The product-identity header prepended to every summary (exact bytes of
the literal in main.go). -/
def brandHeader : List Char := "## ğŸŒªï¸ Cyclone AI Code Review\n\n".data

/-- `parseClaudeResponse`: extract the SUMMARY and POEM sections, split the
text on `PR_COMMENT:` and parse each block after the first (dropping blocks
that parse to nothing), append the poem (when present) to the summary, and
prepend the product header. -/
def parseClaudeResponse (claudeText : List Char) : ReviewResult :=
  let summary := extractSection claudeText "SUMMARY:".data
  let poem := extractSection claudeText "POEM:".data
  let comments := ((goSplit claudeText "PR_COMMENT:".data).drop 1).filterMap parsePRCommentBlock
  let finalSummary := if poem ≠ [] then summary ++ poemJoiner ++ poem else summary
  ⟨brandHeader ++ finalSummary, comments⟩

/-! ### PR size gate (main.go checkPRSize)

The message texts reproduce the string literals of main.go exactly; the
emoji in that file are mojibake (double-encoded UTF-8), so the exact code
points are written with `\u` escapes. -/

def MAX_FILES_FOR_REVIEW : Int := 25

def MAX_ADDITIONS_FOR_REVIEW : Int := 800

def MAX_TOTAL_CHANGES : Int := 1200

def WARN_FILES_THRESHOLD : Int := 20

def WARN_ADDITIONS_THRESHOLD : Int := 400

/-- The skip/warn/proceed decision object (`PRSizeCheck` in main.go). -/
structure PRSizeCheck where
  shouldReview : Bool
  warningMessage : String
  skipMessage : String
deriving DecidableEq

/-- The skip message for too many changed files, with `%d` interpolations. -/
def fileSkipMessage (files : Int) : String :=
  "## \u011f\u0178\u0152\u00aa\u00ef\u00b8 Cyclone Notice\n\n**PR Too Large for Automated Review**\n\nThis PR modifies **" ++
  toString files ++ " files**, which exceeds our limit of " ++ toString MAX_FILES_FOR_REVIEW ++
  " files for automated review.\n\n**Why we skip large PRs:**\n- \u011f\u0178\u00af **Review Quality**: Large PRs are harder to review thoroughly\n- \u011f\u0178\u00a7\u00a0 **Cognitive Load**: Smaller PRs are easier for humans to understand\n- \u011f\u0178\u203a **Bug Detection**: Issues are easier to spot in focused changes\n- \u011f\u0178\u0161\u20ac **Faster Iteration**: Smaller PRs get merged faster\n\n**Suggestions:**\n- Consider breaking this into smaller, focused PRs\n- Each PR should ideally change < 15 files and < 400 lines\n- Group related changes together (e.g., \"Add user authentication\", \"Update API endpoints\")\n\n*Happy to review once split into smaller chunks!* \u011f\u0178\u0152\u00aa\u00ef\u00b8"

/-- The skip message for too many added lines. -/
def additionSkipMessage (additions : Int) : String :=
  "## \u011f\u0178\u0152\u00aa\u00ef\u00b8 Cyclone Notice\n\n**PR Too Large for Automated Review**\n\nThis PR adds **" ++
  toString additions ++ " lines**, which exceeds our limit of " ++ toString MAX_ADDITIONS_FOR_REVIEW ++
  " lines for automated review.\n\n**Large PRs are challenging because:**\n- \u011f\u0178\u201d **Review Thoroughness**: Hard to catch all issues in large changes\n- \u00e2\u00b1\u00ef\u00b8 **Review Time**: Takes much longer to review properly  \n- \u011f\u0178\u00a4\u201d **Context Switching**: Difficult to keep all changes in mind\n- \u011f\u0178\u201d\u201e **Merge Conflicts**: Larger PRs are more likely to conflict\n\n**Best Practices:**\n- Aim for PRs with < 400 lines of additions\n- Split features into logical, reviewable chunks\n- Consider feature flags for large features\n\n*Ready to provide detailed feedback on smaller PRs!* \u011f\u0178\u0152\u00aa\u00ef\u00b8"

/-- The skip message for too many total changed lines. -/
def totalSkipMessage (totalChanges additions deletions : Int) : String :=
  "## \u011f\u0178\u0152\u00aa\u00ef\u00b8 Cyclone Notice\n\n**PR Too Large for Automated Review**\n\nThis PR has **" ++
  toString totalChanges ++ " total changes** (+" ++ toString additions ++ ", -" ++ toString deletions ++
  "), exceeding our limit of " ++ toString MAX_TOTAL_CHANGES ++
  " changes.\n\n**Recommendation**: Break this into smaller, focused PRs for better review quality and faster merge times.\n\n*Each PR should tell a focused story about one specific change.* \u011f\u0178\u0152\u00aa\u00ef\u00b8"

/-- The soft-warning bullet for many changed files. -/
def fileWarning (files : Int) : String :=
  "\u011f\u0178\u201c **" ++ toString files ++ " files changed** (consider < " ++
  toString WARN_FILES_THRESHOLD ++ ")"

/-- The soft-warning bullet for many added lines. -/
def additionWarning (additions : Int) : String :=
  "\u011f\u0178\u201c\u02c6 **" ++ toString additions ++ " lines added** (consider < " ++
  toString WARN_ADDITIONS_THRESHOLD ++ ")"

/-- The banner wrapped around the joined warning bullets. -/
def warningBanner (ws : String) : String :=
  "**\u00e2\u0161\u00a0\u00ef\u00b8 Large PR Warning:**\n" ++ ws ++
  "\n\n*Smaller PRs are easier to review thoroughly and merge faster.*\n\n---"

/-- `checkPRSize`: hard ceilings checked in order — changed files, added
lines, total changes — each returning a skip decision; below all ceilings,
soft warnings for files and additions are collected (ordered, joined by a
newline) into a warning banner. -/
def checkPRSize (files additions deletions : Int) : PRSizeCheck :=
  let totalChanges := additions + deletions
  if files > MAX_FILES_FOR_REVIEW then
    ⟨false, "", fileSkipMessage files⟩
  else if additions > MAX_ADDITIONS_FOR_REVIEW then
    ⟨false, "", additionSkipMessage additions⟩
  else if totalChanges > MAX_TOTAL_CHANGES then
    ⟨false, "", totalSkipMessage totalChanges additions deletions⟩
  else
    let warnings := (if files > WARN_FILES_THRESHOLD then [fileWarning files] else []) ++
                    (if additions > WARN_ADDITIONS_THRESHOLD then [additionWarning additions] else [])
    let warningMessage := if warnings ≠ [] then warningBanner (String.intercalate "\n" warnings) else ""
    ⟨true, warningMessage, ""⟩

/-! ### Model-call failure handling (main.go callClaudeAPIWithConfig)

The HTTP interaction is passed in as an outcome value: either the transport
erred (request marshalling, request construction, or `client.Do`), or a
response with a status code arrived whose body either failed to decode or
decoded to a list of content texts. -/

/-- The decoded body of a model response. -/
inductive ClaudeBody where
  | malformed
  | content (texts : List String)
deriving DecidableEq

/-- The outcome of the HTTP exchange with the model endpoint. -/
inductive ClaudeAPIOutcome where
  | netError
  | response (status : Nat) (body : ClaudeBody)
deriving DecidableEq

/-- The result handling of `callClaudeAPIWithConfig`: every transport error,
non-200 status, and decode failure yields the literal
"Error generating AI review"; a 200 response with an empty content array
yields the literal "No response from Claude"; otherwise the first content
text is returned. -/
def callClaudeAPIWithConfig (o : ClaudeAPIOutcome) : String :=
  match o with
  | .netError => "Error generating AI review"
  | .response status body =>
    if status ≠ 200 then "Error generating AI review"
    else
      match body with
      | .malformed => "Error generating AI review"
      | .content [] => "No response from Claude"
      | .content (t :: _) => t

/-! ### In-memory tenant config resolution (main.go getRepositoryConfig) -/

/-- Per-repository review policy (`RepositoryConfig`; precision is the
string-typed `ReviewPrecision`). -/
structure RepositoryConfig where
  name : String
  precision : String
  customPrompt : String
deriving DecidableEq

/-- Per-organization configuration (`OrganizationConfig` in main.go). -/
structure OrganizationConfig where
  name : String
  repositories : List RepositoryConfig
deriving DecidableEq

/-- The complete review configuration (`ReviewConfig` in main.go). -/
structure ReviewConfig where
  organizations : List OrganizationConfig
deriving DecidableEq

/-- The organization loop of `getRepositoryConfig`: on a name match, first
scan the repository list for an exact name, then scan it again for an entry
named "*" or "default"; when neither exists (or the organization name does
not match) continue with the remaining organizations. -/
def getRepositoryConfigIn : List OrganizationConfig → String → String → Option RepositoryConfig
  | [], _, _ => none
  | org :: rest, owner, repoName =>
    if org.name = owner then
      match org.repositories.find? (fun r => r.name == repoName) with
      | some r => some r
      | none =>
        match org.repositories.find? (fun r => r.name == "*" || r.name == "default") with
        | some r => some r
        | none => getRepositoryConfigIn rest owner repoName
    else getRepositoryConfigIn rest owner repoName

/-- `getRepositoryConfig` from main.go; `none` means the repository is not
tracked and the PR is skipped. -/
def getRepositoryConfig (rc : ReviewConfig) (owner repoName : String) : Option RepositoryConfig :=
  getRepositoryConfigIn rc.organizations owner repoName

/-! ### Supabase tenant config resolution
(internal/config/supabase.go, internal/config/provider.go)

The REST interaction is modelled by its query semantics: each lookup filters
the corresponding table by exactly the conditions the Go code puts in the
query string, and a non-OK HTTP status coincides with the empty result for
the purpose of the returned error. -/

/-- An `installation` row. -/
structure InstallationRow where
  id : Int
  installationID : Int
deriving DecidableEq

/-- An `organization` row. -/
structure OrganizationRow where
  id : Int
  installationID : Int
  name : String
deriving DecidableEq

/-- A `repository` row. -/
structure RepositoryRow where
  id : Int
  organizationID : Int
  name : String
  precision : String
  customPrompt : String
deriving DecidableEq

/-- The three tables of the tenant configuration store. -/
structure SupabaseDB where
  installations : List InstallationRow
  organizations : List OrganizationRow
  repositories : List RepositoryRow
deriving DecidableEq

/-- `GetInstallationByInstallationID`: query `installation_id=eq.N` and take
the first row; the empty result is an error. -/
def getInstallationByInstallationID (db : SupabaseDB) (installationID : Int) :
    Except String InstallationRow :=
  match db.installations.filter (fun r => r.installationID == installationID) with
  | [] => .error ("installation not found: " ++ toString installationID)
  | r :: _ => .ok r

/-- `GetOrganizationByInstallationAndName`: the query string is
`installation_id=eq.N` only — the organization name parameter appears in the
error message but never in the filter — and every row of the result is
returned. -/
def getOrganizationByInstallationAndName (db : SupabaseDB) (installationDBID : Int)
    (orgName : String) : Except String (List OrganizationRow) :=
  match db.organizations.filter (fun r => r.installationID == installationDBID) with
  | [] => .error ("organization not found: " ++ orgName)
  | r :: rest => .ok (r :: rest)

/-- `GetRepositoryByOrganizationAndName`: query
`organization_id=eq.N&name=eq.S` and take the first row. -/
def getRepositoryByOrganizationAndName (db : SupabaseDB) (organizationID : Int)
    (repoName : String) : Except String RepositoryRow :=
  match db.repositories.filter (fun r => r.organizationID == organizationID && r.name == repoName) with
  | [] => .error ("repository not found: " ++ repoName)
  | r :: _ => .ok r

/-- `SupabaseProvider.GetRepositoryConfig`: installation by external
identifier, then the organization rows of that installation, then the
repository under `organizations[0].ID`.  (The Go code indexes
`organizations[0]` unconditionally; the successful organization lookup never
returns an empty list, so the empty case below is unreachable.) -/
def GetRepositoryConfig (db : SupabaseDB) (orgName repoName : String)
    (installationID : Int) : Except String RepositoryConfig :=
  match getInstallationByInstallationID db installationID with
  | .error e =>
    .error ("installation not found for installation_id " ++ toString installationID ++ ": " ++ e)
  | .ok installation =>
    match getOrganizationByInstallationAndName db installation.id orgName with
    | .error e =>
      .error ("organization '" ++ orgName ++ "' not found for installation " ++
              toString installationID ++ ": " ++ e)
    | .ok [] => .error "unreachable: successful organization lookup is never empty"
    | .ok (org0 :: _) =>
      match getRepositoryByOrganizationAndName db org0.id repoName with
      | .error e =>
        .error ("repository '" ++ repoName ++ "' not found in organization '" ++ orgName ++ "': " ++ e)
      | .ok repository => .ok ⟨repository.name, repository.precision, repository.customPrompt⟩

/-! ### GitHub-App authentication construction and fallback
(internal/review/github_app_auth.go NewGitHubAppAuth,
internal/bot bot.New and createInstallationClient)

File-system and network effects are passed in as outcome values: the result
of reading and parsing the private key for `NewGitHubAppAuth`, and the result
of the installation-token exchange for `createInstallationClient`. -/

/-- Outcome of loading the App's RSA private key from disk. -/
inductive KeyLoadResult where
  | readError (e : String)
  | pemInvalid
  | parseError (e : String)
  | parsed (key : Nat)
deriving DecidableEq

/-- `NewGitHubAppAuth`: each failure mode of reading, PEM-decoding, or
parsing the key surfaces as an error with the corresponding message. -/
def newGitHubAppAuth (load : KeyLoadResult) : Except String Nat :=
  match load with
  | .readError e => .error ("failed to read private key: " ++ e)
  | .pemInvalid => .error "failed to decode PEM block"
  | .parseError e => .error ("failed to parse private key: " ++ e)
  | .parsed key => .ok key

/-- The authentication-relevant part of the bot configuration. -/
structure BotAuthConfig where
  gitHubAppID : Int
  gitHubPrivateKeyPath : String
deriving DecidableEq

/-- The `githubApp` field of the bot built by `bot.New`: attempted only when
an App ID and a key path are both configured, and on failure the error is
logged as a warning and the field stays nil — the bot continues with the
personal token. -/
def newBotGithubApp (cfg : BotAuthConfig) (load : KeyLoadResult) : Option Nat :=
  if cfg.gitHubAppID ≠ 0 ∧ cfg.gitHubPrivateKeyPath ≠ "" then
    match newGitHubAppAuth load with
    | .ok key => some key
    | .error _ => none
  else none

/-- The client chosen for one review. -/
inductive ClientChoice where
  | personalToken
  | installationToken (tok : String)
deriving DecidableEq

/-- `createInstallationClient`: with no App auth in hand, the personal-token
client is the fallback; with App auth, a failed token exchange is an error
that aborts the review and a successful one yields the installation
client. -/
def createInstallationClient (githubApp : Option Nat)
    (tokenExchange : Except String String) : Except String ClientChoice :=
  match githubApp with
  | none => .ok .personalToken
  | some _ =>
    match tokenExchange with
    | .error e => .error ("failed to get installation token: " ++ e)
    | .ok tok => .ok (.installationToken tok)

/-! ### Concrete inputs used by the claim theorems -/

/-- The model response of the parser round-trip scenario. -/
def c6Response : List Char :=
  ("SUMMARY:$$Hello$$\nPOEM:$$Line1\nLine2$$\nPR_COMMENT:app.go:10: 🔧 **refactor**:$$Do X$$").data

/-- A model response with two well-formed comment blocks around one block
whose header has only two colon-separated fields and one block whose line
field is not numeric. -/
def c7Response : List Char :=
  ("PR_COMMENT:a.go:1: N **nit**:$$A$$\nPR_COMMENT:b.go:$$B$$\nPR_COMMENT:c.go:xx: C **issue**:$$C$$\nPR_COMMENT:d.go:4: D **issue**:$$D$$").data

/-- A store with one installation (external id 100, internal id 1) holding
two organizations, and a repository policy configured under "orgX" only. -/
def c1DB : SupabaseDB :=
  ⟨[⟨1, 100⟩],
   [⟨10, 1, "orgX"⟩, ⟨11, 1, "orgY"⟩],
   [⟨20, 10, "repoA", "strict", "configured under orgX"⟩]⟩

/-- An organization whose repository list has an exact entry and both
wildcard sentinels, "default" listed before "*". -/
def c2WildcardConfig : ReviewConfig :=
  ⟨[⟨"orgX", [⟨"repoA", "minor", ""⟩, ⟨"default", "medium", ""⟩, ⟨"*", "strict", ""⟩]⟩]⟩

/-! ## Helper lemmas -/

theorem hexDigitByte_ne_eqSign (n : Nat) : hexDigitByte n ≠ 61 := by
  unfold hexDigitByte
  split <;> omega

theorem hexEncode_not_eqSign (bs : List Nat) : (61 : Nat) ∉ hexEncode bs := by
  induction bs with
  | nil => simp [hexEncode]
  | cons b rest ih =>
    simp only [hexEncode, List.mem_cons, not_or]
    exact ⟨fun h => hexDigitByte_ne_eqSign _ h.symm,
           fun h => hexDigitByte_ne_eqSign _ h.symm, ih⟩

theorem hexEncode_length (bs : List Nat) : (hexEncode bs).length = 2 * bs.length := by
  induction bs with
  | nil => simp [hexEncode]
  | cons b rest ih =>
    simp only [hexEncode, List.length_cons, ih]
    omega

theorem sha256_length (msg : List Nat) : (sha256 msg).length = 32 := rfl

theorem hmacSha256_length (key msg : List Nat) : (hmacSha256 key msg).length = 32 := rfl

theorem hmacHex_length (key msg : List Nat) :
    (hexEncode (hmacSha256 key msg)).length = 64 := by
  rw [hexEncode_length, hmacSha256_length]

/-- Validating a "sha256="-prefixed header of a 64-byte digest amounts to
comparing the digest with the expected HMAC hex. -/
theorem validate_tagged (secret payload d : List Nat) (hlen : d.length = 64) :
    validateWebhookSignature secret payload (sha256EqTag ++ d) =
      (d == hexEncode (hmacSha256 secret payload)) := by
  have htag : sha256EqTag.length = 7 := by decide
  have hne : sha256EqTag ++ d ≠ [] := by
    intro h
    have := congrArg List.length h
    simp [htag] at this
  have hcond : 7 < (sha256EqTag ++ d).length ∧ (sha256EqTag ++ d).take 7 = sha256EqTag := by
    constructor
    · simp [htag, hlen]
    · rw [← htag, List.take_left]
  unfold validateWebhookSignature
  rw [if_neg hne, if_pos hcond]
  congr 1

/-! ## Claim theorems -/

/-- Claim C10: when a secret is configured, the bare hex HMAC-SHA256 digest
(no "sha256=" prefix) also validates, for every secret and body: the prefix
is stripped only when literally present, and a hex digest never starts with
"sha256=" since its bytes exclude the equals sign. -/
theorem C10_bare_digest_validates (secret payload : List Nat) :
    validateWebhookSignature secret payload (hexEncode (hmacSha256 secret payload)) = true := by
  have hlen := hmacHex_length secret payload
  have hne : hexEncode (hmacSha256 secret payload) ≠ [] := by
    intro h
    rw [h] at hlen
    simp at hlen
  have hcond : ¬(7 < (hexEncode (hmacSha256 secret payload)).length ∧
      (hexEncode (hmacSha256 secret payload)).take 7 = sha256EqTag) := by
    rintro ⟨-, htake⟩
    have hmem : (61 : Nat) ∈ (hexEncode (hmacSha256 secret payload)).take 7 := by
      rw [htake]
      decide
    exact hexEncode_not_eqSign _ (List.take_subset _ _ hmem)
  unfold validateWebhookSignature
  rw [if_neg hne, if_neg hcond]
  exact beq_self_eq_true _

/-- Witness for C10 at secret "key" and payload "abc". -/
theorem C10_bare_digest_validates_witness :
    validateWebhookSignature (strBytes "key") (strBytes "abc")
      (hexEncode (hmacSha256 (strBytes "key") (strBytes "abc"))) = true :=
  C10_bare_digest_validates (strBytes "key") (strBytes "abc")

/-- Claim C4: with a secret configured, the correct "sha256="-prefixed HMAC
hex digest validates; a changed 64-byte digest under the same prefix does
not; the correct digest does not validate a body whose HMAC differs; and a
failed validation makes the webhook handler answer unauthorized and stop. -/
theorem C4_signature_validation (secret payload sig : List Nat) :
    (validateWebhookSignature secret payload
        (sha256EqTag ++ hexEncode (hmacSha256 secret payload)) = true)
    ∧ (∀ d : List Nat, d.length = 64 → d ≠ hexEncode (hmacSha256 secret payload) →
        validateWebhookSignature secret payload (sha256EqTag ++ d) = false)
    ∧ (∀ payload' : List Nat,
        hexEncode (hmacSha256 secret payload') ≠ hexEncode (hmacSha256 secret payload) →
        validateWebhookSignature secret payload'
          (sha256EqTag ++ hexEncode (hmacSha256 secret payload)) = false)
    ∧ (secret ≠ [] → validateWebhookSignature secret payload sig = false →
        webhookAuthCheck secret payload sig = .unauthorized) := by
  refine ⟨?_, ?_, ?_, ?_⟩
  · rw [validate_tagged secret payload _ (hmacHex_length secret payload)]
    exact beq_self_eq_true _
  · intro d hlen hd
    rw [validate_tagged secret payload d hlen]
    exact beq_eq_false_iff_ne.mpr hd
  · intro payload' hdiff
    rw [validate_tagged secret payload' _ (hmacHex_length secret payload)]
    exact beq_eq_false_iff_ne.mpr (fun h => hdiff (by rw [h]))
  · intro hs hv
    unfold webhookAuthCheck
    rw [if_pos ⟨hs, hv⟩]

/-- Witness for C4 at secret "key" and payload "abc": the digest mutation
flips the lowest bit of the digest's last hex character, the body mutation
flips the lowest bit of the last body byte. -/
theorem C4_signature_validation_witness :
    (validateWebhookSignature (strBytes "key") (strBytes "abc")
        (sha256EqTag ++ hexEncode (hmacSha256 (strBytes "key") (strBytes "abc"))) = true)
    ∧ (validateWebhookSignature (strBytes "key") (strBytes "abc")
        (sha256EqTag ++
         strBytes "9c196e32dc0175f86f4b1cb89289d6619de6bee699e4c378e68309ed97a1a6aa") = false)
    ∧ (validateWebhookSignature (strBytes "key") (strBytes "abb")
        (sha256EqTag ++ hexEncode (hmacSha256 (strBytes "key") (strBytes "abc"))) = false)
    ∧ (webhookAuthCheck (strBytes "key") (strBytes "abc") (strBytes "nope") = .unauthorized) := by
  obtain ⟨h1, h2, h3, h4⟩ :=
    C4_signature_validation (strBytes "key") (strBytes "abc") (strBytes "nope")
  exact ⟨h1, h2 _ (by decide) (by decide), h3 _ (by decide), h4 (by decide) (by decide)⟩

/-- Claim C3: draft pull requests never trigger a review; with draft false the
trigger fires exactly for the actions "opened" and "ready_for_review"; the
action "synchronize" never triggers regardless of draft state. -/
theorem C3_trigger_decision (action : String) (draft : Bool) :
    (draft = true → shouldTriggerReview action draft = false)
    ∧ (draft = false →
        (shouldTriggerReview action draft = true ↔
          (action = "opened" ∨ action = "ready_for_review")))
    ∧ (shouldTriggerReview "synchronize" draft = false) := by
  refine ⟨?_, ?_, ?_⟩
  · intro h
    simp [shouldTriggerReview, h]
  · intro h
    subst h
    unfold shouldTriggerReview
    split_ifs with h1 h2 h3 <;> simp_all
  · cases draft <;> decide

/-- Witness for C3 at the actions "opened" (draft and non-draft) and
"synchronize". -/
theorem C3_trigger_decision_witness :
    shouldTriggerReview "opened" true = false
    ∧ shouldTriggerReview "opened" false = true
    ∧ shouldTriggerReview "synchronize" false = false := by
  refine ⟨(C3_trigger_decision "opened" true).1 rfl, ?_,
          (C3_trigger_decision "synchronize" false).2.2⟩
  exact ((C3_trigger_decision "opened" false).2.1 rfl).mpr (Or.inl rfl)

/-- Claim C5: the hard ceilings are checked in the fixed order changed-file
count (25), added lines (800), total changes (1200); each skip message names
its metric and ceiling; a PR with 30 files and 900 additions reports the
file-count violation, not the addition violation. -/
theorem C5_size_gate_priority (files additions deletions : Int) :
    (MAX_FILES_FOR_REVIEW < files →
      checkPRSize files additions deletions = ⟨false, "", fileSkipMessage files⟩)
    ∧ (files ≤ MAX_FILES_FOR_REVIEW → MAX_ADDITIONS_FOR_REVIEW < additions →
      checkPRSize files additions deletions = ⟨false, "", additionSkipMessage additions⟩)
    ∧ (files ≤ MAX_FILES_FOR_REVIEW → additions ≤ MAX_ADDITIONS_FOR_REVIEW →
       MAX_TOTAL_CHANGES < additions + deletions →
      checkPRSize files additions deletions =
        ⟨false, "", totalSkipMessage (additions + deletions) additions deletions⟩)
    ∧ (checkPRSize 30 900 0 = ⟨false, "", fileSkipMessage 30⟩)
    ∧ (goContains (fileSkipMessage 30).data "30 files".data = true
       ∧ goContains (fileSkipMessage 30).data "limit of 25 files".data = true)
    ∧ (goContains (additionSkipMessage 900).data "900 lines".data = true
       ∧ goContains (additionSkipMessage 900).data "limit of 800 lines".data = true)
    ∧ fileSkipMessage 30 ≠ additionSkipMessage 900 := by
  refine ⟨?_, ?_, ?_, by decide, by decide, by decide, by decide⟩
  · intro h
    simp only [checkPRSize]
    rw [if_pos h]
  · intro h1 h2
    simp only [checkPRSize]
    rw [if_neg (not_lt.mpr h1), if_pos h2]
  · intro h1 h2 h3
    simp only [checkPRSize]
    rw [if_neg (not_lt.mpr h1), if_neg (not_lt.mpr h2), if_pos h3]

/-- Witness for C5: each hard ceiling at a concrete violating input. -/
theorem C5_size_gate_priority_witness :
    checkPRSize 26 0 0 = ⟨false, "", fileSkipMessage 26⟩
    ∧ checkPRSize 10 801 0 = ⟨false, "", additionSkipMessage 801⟩
    ∧ checkPRSize 10 700 600 = ⟨false, "", totalSkipMessage (700 + 600) 700 600⟩ := by
  refine ⟨(C5_size_gate_priority 26 0 0).1 (by decide),
          (C5_size_gate_priority 10 801 0).2.1 (by decide) (by decide),
          (C5_size_gate_priority 10 700 600).2.2.1 (by decide) (by decide) (by decide)⟩

/-- Claim C8: a network error, a non-200 status, a decode failure, and an
empty content array each yield a fixed literal string in place of the model
text, and the call is total — the successful case returns the first content
text. -/
theorem C8_model_call_never_throws :
    (callClaudeAPIWithConfig .netError = "Error generating AI review")
    ∧ (∀ s : Nat, ∀ b : ClaudeBody, s ≠ 200 →
        callClaudeAPIWithConfig (.response s b) = "Error generating AI review")
    ∧ (callClaudeAPIWithConfig (.response 200 .malformed) = "Error generating AI review")
    ∧ (callClaudeAPIWithConfig (.response 200 (.content [])) = "No response from Claude")
    ∧ (∀ t : String, ∀ ts : List String,
        callClaudeAPIWithConfig (.response 200 (.content (t :: ts))) = t) := by
  refine ⟨rfl, ?_, rfl, rfl, fun t ts => rfl⟩
  intro s b hs
  simp [callClaudeAPIWithConfig, hs]

/-- Witness for C8 at a 500 status and at a successful 200 response. -/
theorem C8_model_call_never_throws_witness :
    callClaudeAPIWithConfig (.response 500 (.content ["hi"])) = "Error generating AI review"
    ∧ callClaudeAPIWithConfig (.response 200 (.content ["hi"])) = "hi" :=
  ⟨C8_model_call_never_throws.2.1 500 _ (by decide),
   C8_model_call_never_throws.2.2.2.2 "hi" []⟩

/-- Claim C6: the round-trip response parses to a summary containing "Hello"
and the poem text, and to exactly one comment at app.go line 10 whose body is
the category-label line, a blank line, then "Do X". -/
theorem C6_parser_round_trip :
    goContains (parseClaudeResponse c6Response).summary "Hello".data = true
    ∧ goContains (parseClaudeResponse c6Response).summary "Line1\nLine2".data = true
    ∧ (parseClaudeResponse c6Response).comments =
        [⟨"app.go".data, 10, ("🔧 **refactor**:" ++ "\n\n" ++ "Do X").data, "RIGHT".data⟩] := by
  decide

/-- Claim C7: a block whose header has fewer than three colon-separated
fields yields no comment, a block whose line field is non-numeric yields no
comment, and a response carrying both kinds of malformed block between two
well-formed ones still parses to exactly the two well-formed comments. -/
theorem C7_parse_anomalies_local :
    (∀ block : List Char, ∀ i j : Nat,
        goIndex block dollarDollar = some i →
        goLastIndex block dollarDollar = some j →
        i < j →
        (goSplitN (":".data) 3 (goTrimSpace (goSlice block 0 i))).length < 3 →
        parsePRCommentBlock block = none)
    ∧ (∀ block : List Char, ∀ i j : Nat, ∀ p0 p1 p2 : List Char, ∀ rest : List (List Char),
        goIndex block dollarDollar = some i →
        goLastIndex block dollarDollar = some j →
        i < j →
        goSplitN (":".data) 3 (goTrimSpace (goSlice block 0 i)) = p0 :: p1 :: p2 :: rest →
        goAtoi (goTrimSpace p1) = none →
        parsePRCommentBlock block = none)
    ∧ (parseClaudeResponse c7Response).comments =
        [⟨"a.go".data, 1, ("N **nit**:" ++ "\n\n" ++ "A").data, "RIGHT".data⟩,
         ⟨"d.go".data, 4, ("D **issue**:" ++ "\n\n" ++ "D").data, "RIGHT".data⟩] := by
  refine ⟨?_, ?_, by decide⟩
  · intro block i j h1 h2 hij hlen
    simp only [parsePRCommentBlock, h1, h2]
    rw [if_neg (not_le.mpr hij)]
    rcases hsp : goSplitN (":".data) 3 (goTrimSpace (goSlice block 0 i)) with
      _ | ⟨p0, _ | ⟨p1, _ | ⟨p2, rest⟩⟩⟩
    · rfl
    · rfl
    · rfl
    · rw [hsp] at hlen
      exact absurd hlen (by simp)
  · intro block i j p0 p1 p2 rest h1 h2 hij hsp hnum
    simp only [parsePRCommentBlock, h1, h2]
    rw [if_neg (not_le.mpr hij), hsp]
    simp only [hnum]

/-- Witness for C7: the two-field header block and the non-numeric line
block of `c7Response` each parse to nothing. -/
theorem C7_parse_anomalies_local_witness :
    parsePRCommentBlock ("b.go:$$B$$\n").data = none
    ∧ parsePRCommentBlock ("c.go:xx: C **issue**:$$C$$\n").data = none := by
  refine ⟨C7_parse_anomalies_local.1 _ 5 8 (by decide) (by decide) (by decide) (by decide),
          C7_parse_anomalies_local.2.1 _ 21 24 ("c.go").data ("xx").data
            (" C **issue**:").data [] (by decide) (by decide) (by decide)
            (by decide) (by decide)⟩

/-- Claim C1 (the code contradicts it): the organization lookup filters only
on the installation's internal identifier — the requested name is used in
the error message, never in the query — and the provider takes the first
returned row, so the policy configured under "orgX" resolves for a request
naming "orgY" within the same installation. -/
theorem C1_org_lookup_ignores_name :
    getOrganizationByInstallationAndName c1DB 1 "orgY" =
      .ok [⟨10, 1, "orgX"⟩, ⟨11, 1, "orgY"⟩]
    ∧ GetRepositoryConfig c1DB "orgY" "repoA" 100 =
      .ok ⟨"repoA", "strict", "configured under orgX"⟩ :=
  ⟨rfl, rfl⟩

/-- Counterexample for C2: when the organization lists a "default" entry
before a "*" entry, the "default" entry — not the "*" entry — resolves for
an unlisted repository, refuting the claimed "*"-before-"default" order. -/
theorem C2_counterexample :
    getRepositoryConfig c2WildcardConfig "orgX" "repoB" = some ⟨"default", "medium", ""⟩
    ∧ getRepositoryConfig c2WildcardConfig "orgX" "repoB" ≠ some ⟨"*", "strict", ""⟩ := by
  decide

/-- Claim C2 as amended: exact repository-name match first; otherwise the
first entry in repository-list order named "*" or "default" (not "*" before
"default"); neither present means no policy. The claim's concrete scenario
(an exact entry and a "*" entry) resolves as stated. -/
theorem C2_wildcard_fallback_amended (rs : List RepositoryConfig) (owner repoName : String) :
    (∀ r : RepositoryConfig, rs.find? (fun x => x.name == repoName) = some r →
        getRepositoryConfig ⟨[⟨owner, rs⟩]⟩ owner repoName = some r)
    ∧ (rs.find? (fun x => x.name == repoName) = none →
        getRepositoryConfig ⟨[⟨owner, rs⟩]⟩ owner repoName =
          rs.find? (fun x => x.name == "*" || x.name == "default"))
    ∧ (getRepositoryConfig ⟨[⟨"orgX", [⟨"repoA", "minor", "pA"⟩, ⟨"*", "strict", "pW"⟩]⟩]⟩
          "orgX" "repoB" = some ⟨"*", "strict", "pW"⟩)
    ∧ (getRepositoryConfig ⟨[⟨"orgX", [⟨"repoA", "minor", "pA"⟩, ⟨"*", "strict", "pW"⟩]⟩]⟩
          "orgX" "repoA" = some ⟨"repoA", "minor", "pA"⟩) := by
  refine ⟨?_, ?_, by decide, by decide⟩
  · intro r hfind
    simp [getRepositoryConfig, getRepositoryConfigIn, hfind]
  · intro hnone
    cases hw : rs.find? (fun x => x.name == "*" || x.name == "default") with
    | none => simp [getRepositoryConfig, getRepositoryConfigIn, hnone, hw]
    | some r => simp [getRepositoryConfig, getRepositoryConfigIn, hnone, hw]

/-- Witness for C2's amended statement: an exact match and a pure
"default" fallback at concrete configurations. -/
theorem C2_wildcard_fallback_amended_witness :
    getRepositoryConfig ⟨[⟨"o", [⟨"r", "m", ""⟩]⟩]⟩ "o" "r" = some ⟨"r", "m", ""⟩
    ∧ getRepositoryConfig ⟨[⟨"o", [⟨"default", "m", ""⟩]⟩]⟩ "o" "r" =
        some ⟨"default", "m", ""⟩ := by
  refine ⟨(C2_wildcard_fallback_amended [⟨"r", "m", ""⟩] "o" "r").1 _ (by decide), ?_⟩
  have h := (C2_wildcard_fallback_amended [⟨"default", "m", ""⟩] "o" "r").2.1 (by decide)
  rw [h]
  decide

/-- Counterexample for C9: with an App ID and key path configured but the
key failing to load, `bot.New` keeps no App auth and the review proceeds on
the personal-token client instead of aborting. -/
theorem C9_counterexample :
    newBotGithubApp ⟨123, "key.pem"⟩ .pemInvalid = none
    ∧ createInstallationClient (newBotGithubApp ⟨123, "key.pem"⟩ .pemInvalid) (.ok "tok") =
        .ok .personalToken :=
  ⟨rfl, rfl⟩

/-- Claim C9 as amended: the personal token is used when the App path was
never configured or when its initialization failed at startup (unreadable
key, bad PEM, parse failure — logged, then silently fallen back from); only
with App auth successfully initialized does a failing token exchange abort
the review, and a successful one yields the installation client. -/
theorem C9_auth_fallback_amended (cfg : BotAuthConfig) (load : KeyLoadResult)
    (tex : Except String String) :
    ((cfg.gitHubAppID = 0 ∨ cfg.gitHubPrivateKeyPath = "") →
        createInstallationClient (newBotGithubApp cfg load) tex = .ok .personalToken)
    ∧ (∀ e : String, newGitHubAppAuth load = .error e →
        createInstallationClient (newBotGithubApp cfg load) tex = .ok .personalToken)
    ∧ (∀ key : Nat, cfg.gitHubAppID ≠ 0 → cfg.gitHubPrivateKeyPath ≠ "" →
        newGitHubAppAuth load = .ok key →
        (∀ e : String, tex = .error e →
          createInstallationClient (newBotGithubApp cfg load) tex =
            .error ("failed to get installation token: " ++ e))
        ∧ (∀ tok : String, tex = .ok tok →
          createInstallationClient (newBotGithubApp cfg load) tex =
            .ok (.installationToken tok))) := by
  refine ⟨?_, ?_, ?_⟩
  · intro h
    rcases h with h | h <;> simp [newBotGithubApp, createInstallationClient, h]
  · intro e he
    unfold newBotGithubApp
    split_ifs with hc
    · rw [he]
      rfl
    · rfl
  · intro key h1 h2 hok
    constructor
    · intro e he
      subst he
      simp [newBotGithubApp, createInstallationClient, h1, h2, hok]
    · intro tok ht
      subst ht
      simp [newBotGithubApp, createInstallationClient, h1, h2, hok]

/-- Witness for C9's amended statement: unconfigured fallback, failed-init
fallback, aborting token exchange, and successful exchange, each at a
concrete configuration. -/
theorem C9_auth_fallback_amended_witness :
    createInstallationClient (newBotGithubApp ⟨0, ""⟩ (.parsed 7)) (.ok "t") = .ok .personalToken
    ∧ createInstallationClient (newBotGithubApp ⟨5, "k.pem"⟩ (.readError "no such file"))
        (.ok "t") = .ok .personalToken
    ∧ createInstallationClient (newBotGithubApp ⟨5, "k.pem"⟩ (.parsed 7)) (.error "boom") =
        .error ("failed to get installation token: " ++ "boom")
    ∧ createInstallationClient (newBotGithubApp ⟨5, "k.pem"⟩ (.parsed 7)) (.ok "t") =
        .ok (.installationToken "t") := by
  refine ⟨(C9_auth_fallback_amended ⟨0, ""⟩ (.parsed 7) (.ok "t")).1 (Or.inl rfl),
          (C9_auth_fallback_amended ⟨5, "k.pem"⟩ (.readError "no such file") (.ok "t")).2.1
            "failed to read private key: no such file" rfl,
          ((C9_auth_fallback_amended ⟨5, "k.pem"⟩ (.parsed 7) (.error "boom")).2.2
            7 (by decide) (by decide) rfl).1 "boom" rfl,
          ((C9_auth_fallback_amended ⟨5, "k.pem"⟩ (.parsed 7) (.ok "t")).2.2
            7 (by decide) (by decide) rfl).2 "t" rfl⟩

end Cyclone
